import Mathlib

/-!
Shallow embedding of the MovieNight recommendation system's core modules
(`model_training/model.py`, `recommendation_tracker.py`, `model_versioning.py`)
and proofs about the spec's claims.  Python floats are modelled as rationals,
SQL timestamps as integers (in days), database tables as lists of records.
-/

namespace MovieNight

/-! ### Character/string helpers with Python semantics -/

/-- ASCII whitespace class of Python's regex `\s` (and `str.strip`). -/
def isPySpace (c : Char) : Bool :=
  c = ' ' || c = '\t' || c = '\n' || c = '\r' || c = '\x0b' || c = '\x0c'

/-- Lower-case a character list (Python `str.lower` on ASCII). -/
def lowerChars (cs : List Char) : List Char := cs.map Char.toLower

/-- Python `str.strip()`: drop leading and trailing whitespace. -/
def pyStrip (cs : List Char) : List Char :=
  ((cs.dropWhile isPySpace).reverse.dropWhile isPySpace).reverse

/-- Python `str.lower()` on a whole string. -/
def lowerStr (s : String) : String := String.mk (lowerChars s.data)

/-- Python `s.split("|")`: split at every pipe, keeping empty pieces. -/
def splitPipe : List Char → List (List Char)
  | [] => [[]]
  | c :: cs =>
    if c = '|' then [] :: splitPipe cs
    else
      match splitPipe cs with
      | [] => [[c]]
      | h :: t => (c :: h) :: t

/-- Case-insensitive literal match: `pat` (already lower-cased) against a
prefix of `cs`; returns the remainder on success. -/
def matchCI : List Char → List Char → Option (List Char)
  | [], rest => some rest
  | _, [] => none
  | p :: ps, c :: cs => if c.toLower = p then matchCI ps cs else none

/-- Is `needle` a literal prefix of the second list? -/
def isPrefixSub : List Char → List Char → Bool
  | [], _ => true
  | _ :: _, [] => false
  | a :: as, b :: bs => a = b && isPrefixSub as bs

/-- Does `needle` occur as a contiguous sublist (SQL `LIKE '%needle%'`)? -/
def hasSub (needle : List Char) : List Char → Bool
  | [] => needle.isEmpty
  | c :: cs => isPrefixSub needle (c :: cs) || hasSub needle cs

/-- Apply a regex-style matcher at every position, left to right and
non-overlapping, deleting each match (Python `re.sub(pat, '', s)`).
`fuel` bounds the recursion; `cs.length` always suffices. -/
def subAll (m : List Char → Option (List Char)) : Nat → List Char → List Char
  | 0, cs => cs
  | fuel + 1, cs =>
    match cs with
    | [] => []
    | c :: cs1 =>
      match m cs with
      | some rest =>
        if rest.length < cs.length then subAll m fuel rest
        else c :: subAll m fuel cs1
      | none => c :: subAll m fuel cs1

/-! ### `model.py`: `extract_base_title` (the four `re.sub` passes) -/

/-- Character class `[IVX0-9]` under `re.IGNORECASE`. -/
def isRomanOrDigit (c : Char) : Bool :=
  c.isDigit || c.toLower = 'i' || c.toLower = 'v' || c.toLower = 'x'

/-- Matcher for `\s+(Part|Vol)\s+[IVX0-9]+` (case-insensitive). -/
def matchPartVol (cs : List Char) : Option (List Char) :=
  if (cs.takeWhile isPySpace).isEmpty then none
  else
    let r1 := cs.dropWhile isPySpace
    match (matchCI ['p', 'a', 'r', 't'] r1).orElse
        (fun _ => matchCI ['v', 'o', 'l'] r1) with
    | none => none
    | some r2 =>
      if (r2.takeWhile isPySpace).isEmpty then none
      else
        let r3 := r2.dropWhile isPySpace
        if (r3.takeWhile isRomanOrDigit).isEmpty then none
        else some (r3.dropWhile isRomanOrDigit)

/-- `re.sub(r'\s+\d+$', '', s)`: strip one trailing
whitespace-run-plus-digit-run suffix, if present. -/
def stripTrailingNum (cs : List Char) : List Char :=
  let r := cs.reverse
  if (r.takeWhile Char.isDigit).isEmpty then cs
  else
    let r1 := r.dropWhile Char.isDigit
    if (r1.takeWhile isPySpace).isEmpty then cs
    else (r1.dropWhile isPySpace).reverse

/-- Matcher for the optional-group part `(The\s+)?Sequel` starting at `r1`
(the position right after `:` and its whitespace run), with the regex's
backtracking order: group first, then without the group. -/
def matchSequelTail (r1 : List Char) : Option (List Char) :=
  match matchCI ['t', 'h', 'e'] r1 with
  | some r2 =>
    if (r2.takeWhile isPySpace).isEmpty then
      matchCI ['s', 'e', 'q', 'u', 'e', 'l'] r1
    else
      match matchCI ['s', 'e', 'q', 'u', 'e', 'l'] (r2.dropWhile isPySpace) with
      | some r3 => some r3
      | none => matchCI ['s', 'e', 'q', 'u', 'e', 'l'] r1
  | none => matchCI ['s', 'e', 'q', 'u', 'e', 'l'] r1

/-- Matcher for `:\s+(The\s+)?Sequel|Returns|Reborn|Unleashed`
(case-insensitive), alternatives tried left to right. -/
def matchSequel (cs : List Char) : Option (List Char) :=
  let alt1 : Option (List Char) :=
    match cs with
    | ':' :: r0 =>
      if (r0.takeWhile isPySpace).isEmpty then none
      else matchSequelTail (r0.dropWhile isPySpace)
    | _ => none
  (alt1.orElse (fun _ => matchCI ['r', 'e', 't', 'u', 'r', 'n', 's'] cs)).orElse
    (fun _ =>
      (matchCI ['r', 'e', 'b', 'o', 'r', 'n'] cs).orElse
        (fun _ => matchCI ['u', 'n', 'l', 'e', 'a', 's', 'h', 'e', 'd'] cs))

/-- Matcher for `\s+\(.*?\)` (lazy body, `.` does not cross newlines). -/
def matchParen (cs : List Char) : Option (List Char) :=
  if (cs.takeWhile isPySpace).isEmpty then none
  else
    match cs.dropWhile isPySpace with
    | '(' :: r1 =>
      match r1.dropWhile (fun c => !(c = ')' || c = '\n')) with
      | ')' :: r2 => some r2
      | _ => none
    | _ => none

/-- `model.py` `extract_base_title`: the four `re.sub` passes in source
order (Part/Vol markers, trailing numbers, sequel indicators, parenthetical
suffixes), then `strip().lower()`. -/
def extract_base_title (title : String) : String :=
  if title = "" then ""
  else
    let s1 := subAll matchPartVol title.data.length title.data
    let s2 := stripTrailingNum s1
    let s3 := subAll matchSequel s2.length s2
    let s4 := subAll matchParen s3.length s3
    String.mk (lowerChars (pyStrip s4))

/-- `model.py` `franchise_similarity`: 1.0 iff both base titles are equal
and non-empty. -/
def franchise_similarity (user_title movie_title : String) : ℚ :=
  let user_base := extract_base_title user_title
  let movie_base := extract_base_title movie_title
  if user_base = movie_base ∧ user_base ≠ "" then 1 else 0

/-! ### `model.py`: `genre_similarity` -/

/-- The Python `set(s.split("|"))` of a pipe-separated genre string. -/
def genreSet (s : String) : Finset (List Char) := (splitPipe s.data).toFinset

/-- `model.py` `genre_similarity`: Jaccard index of the two pipe-separated
genre strings; 0.0 if either string is empty (Python truthiness guard). -/
def genre_similarity (user_genres movie_genres : String) : ℚ :=
  if user_genres = "" ∨ movie_genres = "" then 0
  else
    ((genreSet user_genres ∩ genreSet movie_genres).card : ℚ) /
      ((genreSet user_genres ∪ genreSet movie_genres).card : ℚ)

/-! ### `model.py`: general-mode candidate scoring (`get_top_recommendations`,
the `withColumn` chain computing `genre_boost` and `hybrid_score`). -/

structure GeneralScores where
  genre_sim : ℚ
  cast_sim : ℚ
  franchise_sim : ℚ
  user_rating_norm : ℚ
  popularity_score : ℚ
  genre_boost : ℚ
  hybrid_score : ℚ
  deriving DecidableEq

/-- The general-mode row computation of `get_top_recommendations`: the
`genre_boost` `when`-chain and the `hybrid_score` weighted sum, applied to a
candidate's component scores. -/
def score_general_candidate (genre_sim cast_sim franchise_sim
    user_rating_norm popularity_score : ℚ) : GeneralScores :=
  let genre_boost : ℚ :=
    if genre_sim > 7/10 then 15/100
    else if genre_sim > 5/10 then 10/100
    else if genre_sim < 3/10 then -(20/100)
    else 0
  { genre_sim := genre_sim
    cast_sim := cast_sim
    franchise_sim := franchise_sim
    user_rating_norm := user_rating_norm
    popularity_score := popularity_score
    genre_boost := genre_boost
    hybrid_score :=
      40/100 * genre_sim + 15/100 * cast_sim + 5/100 * franchise_sim +
        30/100 * user_rating_norm + 10/100 * popularity_score + genre_boost }

/-! ### `recommendation_tracker.py`: data model.  Tables are lists of
records, timestamps are integers counted in days. -/

structure RecSet where
  id : ℕ
  user_id : ℕ
  recommendation_type : String
  generated_at : ℤ
  is_valid : Bool
  deriving DecidableEq

structure RecSetItem where
  recommendation_set_id : ℕ
  movie_id : Option ℤ
  movie_title : String
  predicted_score : ℚ
  rank_position : ℕ
  deriving DecidableEq

structure QualityRecord where
  recommendation_set_id : ℕ
  user_id : ℕ
  movie_id : ℚ
  movie_title : String
  predicted_score : ℚ
  actual_rating : ℚ
  quality_score : ℚ
  was_correct : Bool
  checked_at : ℤ
  deriving DecidableEq

structure TrackerDB where
  sets : List RecSet
  items : List RecSetItem
  quality : List QualityRecord
  deriving DecidableEq

/-- The join of `recommendation_set_items` with `recommendation_sets`
restricted to this user's valid sets of the last 30 days (the `WHERE`
clause shared by both lookup queries in
`validate_recommendation_against_rating`). -/
def recentValidCandidates (db : TrackerDB) (now : ℤ) (user_id : ℕ) :
    List (RecSetItem × RecSet) :=
  db.items.filterMap (fun it =>
    (db.sets.find? (fun s => s.id == it.recommendation_set_id)).bind (fun s =>
      if s.user_id = user_id ∧ s.is_valid ∧ now - 30 < s.generated_at then
        some (it, s)
      else none))

/-- Rows of the exact-match query: `LOWER(movie_title) = normalized`. -/
def exactMatches (db : TrackerDB) (now : ℤ) (user_id : ℕ)
    (normalized : String) : List (RecSetItem × RecSet) :=
  (recentValidCandidates db now user_id).filter
    (fun p => lowerStr p.1.movie_title == normalized)

/-- Rows of the fallback query: substring match in either direction
(`LIKE '%…%'`). -/
def partialMatches (db : TrackerDB) (now : ℤ) (user_id : ℕ)
    (normalized : String) : List (RecSetItem × RecSet) :=
  (recentValidCandidates db now user_id).filter
    (fun p => hasSub normalized.data (lowerStr p.1.movie_title).data ||
      hasSub (lowerStr p.1.movie_title).data normalized.data)

/-- The two-stage lookup of `validate_recommendation_against_rating`:
exact match first, then partial, each `ORDER BY rank_position ASC LIMIT 1`. -/
def find_recent_recommendation (db : TrackerDB) (now : ℤ) (user_id : ℕ)
    (normalized : String) : Option (RecSetItem × RecSet) :=
  match (exactMatches db now user_id normalized).argmin
      (fun p => p.1.rank_position) with
  | some p => some p
  | none =>
    (partialMatches db now user_id normalized).argmin
      (fun p => p.1.rank_position)

structure ValidationResult where
  was_in_recommendations : Bool
  recommendation_set_id : Option ℕ
  predicted_score : ℚ
  actual_rating : ℚ
  quality_score : ℚ
  is_accurate : Bool
  deriving DecidableEq

/-- `recommendation_tracker.py` `validate_recommendation_against_rating`:
returns the result dict and the database with the written `QualityRecord`. -/
def validate_recommendation_against_rating (db : TrackerDB) (now : ℤ)
    (user_id : ℕ) (movie_id : ℚ) (movie_title : String) (user_rating : ℕ) :
    ValidationResult × TrackerDB :=
  let normalized := lowerStr (String.mk (pyStrip movie_title.data))
  match find_recent_recommendation db now user_id normalized with
  | some p =>
    let predicted_score := p.1.predicted_score
    let actual_rating_norm : ℚ := (user_rating : ℚ) / 10
    let error := |predicted_score - actual_rating_norm|
    let quality_score := max 0 (1 - error)
    let is_accurate := decide (error ≤ 2/10)
    ({ was_in_recommendations := true
       recommendation_set_id := some p.2.id
       predicted_score := predicted_score
       actual_rating := actual_rating_norm
       quality_score := quality_score
       is_accurate := is_accurate },
     { db with quality := db.quality ++
        [{ recommendation_set_id := p.2.id
           user_id := user_id
           movie_id := movie_id
           movie_title := movie_title
           predicted_score := predicted_score
           actual_rating := (user_rating : ℚ)
           quality_score := quality_score
           was_correct := is_accurate
           checked_at := now }] })
  | none =>
    ({ was_in_recommendations := false
       recommendation_set_id := none
       predicted_score := 0
       actual_rating := (user_rating : ℚ) / 10
       quality_score := 0
       is_accurate := false },
     { db with quality := db.quality ++
        [{ recommendation_set_id := 0
           user_id := user_id
           movie_id := movie_id
           movie_title := movie_title
           predicted_score := 0
           actual_rating := (user_rating : ℚ)
           quality_score := 0
           was_correct := false
           checked_at := now }] })

structure RevalidationResult where
  needs_revalidation : Bool
  accuracy : ℚ
  correct_count : ℕ
  total_validated : ℕ
  avg_error : ℚ
  deriving DecidableEq

/-- The `recommendation_quality` rows of the last 30 days for this user
(the `WHERE` clause of `check_for_model_revalidation`). -/
def recentQuality (db : List QualityRecord) (now : ℤ) (user_id : ℕ) :
    List QualityRecord :=
  db.filter (fun q => decide (q.user_id = user_id ∧ now - 30 < q.checked_at))

/-- SQL `AVG(quality_score)` over a list of quality rows. -/
def avgQuality (l : List QualityRecord) : ℚ :=
  (l.map (·.quality_score)).sum / (l.length : ℚ)

/-- SQL `AVG(ABS(predicted_score - actual_rating))`; note the source
compares the [0,1] prediction against the raw 0-10 rating here. -/
def avgAbsError (l : List QualityRecord) : ℚ :=
  (l.map (fun q => |q.predicted_score - q.actual_rating|)).sum / (l.length : ℚ)

/-- `recommendation_tracker.py` `check_for_model_revalidation`: aggregates
the recent rows; the populated branch runs only when `total > 5`. -/
def check_for_model_revalidation (db : List QualityRecord) (now : ℤ)
    (user_id : ℕ) (threshold : ℚ) : RevalidationResult :=
  let recs := recentQuality db now user_id
  if 5 < recs.length then
    let accuracy := avgQuality recs
    { needs_revalidation := decide (accuracy < threshold)
      accuracy := accuracy
      correct_count := recs.countP (·.was_correct)
      total_validated := recs.length
      avg_error := avgAbsError recs }
  else
    { needs_revalidation := false
      accuracy := 0
      correct_count := 0
      total_validated := 0
      avg_error := 0 }

/-! ### `model_versioning.py`: data model and operations -/

structure VersionRow where
  version_id : String
  status : String
  created_at : ℤ
  training_samples : Option ℕ
  test_accuracy : Option ℚ
  active_until : Option ℤ
  parent_version_id : Option String
  retrain_trigger : Option String
  deriving DecidableEq

/-- The rows matched by `get_active_model_version`'s query: status active
and validity window unexpired (or unset). -/
def activeQualifying (versions : List VersionRow) (now : ℤ) :
    List VersionRow :=
  versions.filter (fun r => r.status == "active" &&
    (match r.active_until with
     | none => true
     | some t => decide (now < t)))

/-- `model_versioning.py` `get_active_model_version`: most recently created
qualifying row (`ORDER BY created_at DESC LIMIT 1`), falling back to
`"v1_initial"` when none qualifies. -/
def get_active_model_version (versions : List VersionRow) (now : ℤ) :
    String :=
  match (activeQualifying versions now).argmax (·.created_at) with
  | some r => r.version_id
  | none => "v1_initial"

/-- `model_versioning.py` `activate_model_version`: optionally force every
active row to inactive, then set the row with this `version_id` to active
with a 30-day validity window. -/
def activate_model_version (versions : List VersionRow) (version_id : String)
    (deactivate_previous : Bool) (now : ℤ) : List VersionRow :=
  let t1 :=
    if deactivate_previous then
      versions.map (fun r =>
        if r.status = "active" then { r with status := "inactive" } else r)
    else versions
  t1.map (fun r =>
    if r.version_id = version_id then
      { r with status := "active", active_until := some (now + 30) }
    else r)

structure ABTestRow where
  test_id : String
  version_a_id : String
  version_b_id : String
  status : String
  winner_id : Option String
  confidence_score : Option ℚ
  deriving DecidableEq

structure ABOutcome where
  test_id : String
  version_a : String
  version_b : String
  winner : String
  confidence : ℚ
  accuracy_a : ℚ
  accuracy_b : ℚ
  deriving DecidableEq

/-- The per-version accuracy fetch in `evaluate_ab_test`:
`result[0] if result else 0` — a missing row yields 0, but a row whose
`test_accuracy` is NULL yields Python `None` (comparing it raises, modelled
as `none`). -/
def lookupTestAccuracy (versions : List VersionRow) (vid : String) :
    Option ℚ :=
  match versions.find? (fun r => r.version_id == vid) with
  | none => some 0
  | some r => r.test_accuracy

/-- `model_versioning.py` `evaluate_ab_test`: look up the test, compare the
two stored accuracies, declare `version_a` the winner only on a strictly
higher accuracy, confidence = the maximum; also records the outcome on the
test row. -/
def evaluate_ab_test (versions : List VersionRow) (tests : List ABTestRow)
    (test_id : String) : Option (ABOutcome × List ABTestRow) :=
  match tests.find? (fun t => t.test_id == test_id) with
  | none => none
  | some t =>
    match lookupTestAccuracy versions t.version_a_id,
        lookupTestAccuracy versions t.version_b_id with
    | some acc_a, some acc_b =>
      let winner_id := if acc_a > acc_b then t.version_a_id else t.version_b_id
      let confidence := max acc_a acc_b
      some ({ test_id := test_id
              version_a := t.version_a_id
              version_b := t.version_b_id
              winner := winner_id
              confidence := confidence
              accuracy_a := acc_a
              accuracy_b := acc_b },
            tests.map (fun u =>
              if u.test_id = test_id then
                { u with
                  status := "completed"
                  winner_id := some winner_id
                  confidence_score := some confidence }
              else u))
    | _, _ => none

/-! ### `model_versioning.py`: `create_weighted_training_data` -/

structure MovieStats where
  title : String
  accuracy : ℚ
  weight : ℚ
  sample_count : ℕ
  deriving DecidableEq

structure TrainingData where
  movie_stats : List (ℚ × MovieStats)
  total_predictions : ℕ
  sample_count : ℕ
  deriving DecidableEq

/-- The per-movie weight formula `(accuracy ** 2) + 0.1` of
`create_weighted_training_data` (the recency factor in the source is the
constant 1.0). -/
def training_weight (accuracy : ℚ) : ℚ := accuracy ^ 2 + 1/10

/-- The window/user filter of `create_weighted_training_data`'s query. -/
def recentQualityWindow (db : List QualityRecord) (now : ℤ)
    (user_id : Option ℕ) (days_back : ℤ) : List QualityRecord :=
  db.filter (fun q => decide (now - days_back < q.checked_at) &&
    (match user_id with
     | none => true
     | some u => decide (q.user_id = u)))

/-- Distinct elements in first-occurrence order (Python dict-key order of
the grouping loop). -/
def firstDedup : List ℚ → List ℚ
  | [] => []
  | a :: as => a :: firstDedup (as.filter (fun b => !(b == a)))
termination_by l => l.length
decreasing_by
  exact Nat.lt_succ_of_le (List.length_filter_le _ _)

/-- Group the window's rows by `movie_id`, keeping each movie's rows. -/
def movieGroups (records : List QualityRecord) :
    List (ℚ × List QualityRecord) :=
  (firstDedup (records.map (·.movie_id))).map
    (fun mid => (mid, records.filter (fun q => q.movie_id == mid)))

/-- `model_versioning.py` `create_weighted_training_data`: `None` when the
window is empty or no movie reaches `min_samples`; otherwise per-movie
accuracy `correct/total` and weight `accuracy² + 0.1`.  (Row order only
affects the order of `movie_stats` and each group's representative title,
none of which any claim concerns.) -/
def create_weighted_training_data (db : List QualityRecord) (now : ℤ)
    (user_id : Option ℕ) (days_back : ℤ) (min_samples : ℕ) :
    Option TrainingData :=
  let records := recentQualityWindow db now user_id days_back
  if records.isEmpty then none
  else
    let surviving :=
      (movieGroups records).filter (fun g => decide (min_samples ≤ g.2.length))
    if surviving.isEmpty then none
    else
      some { movie_stats := surviving.map (fun g =>
               let accuracy : ℚ :=
                 (g.2.countP (·.was_correct) : ℚ) / (g.2.length : ℚ)
               (g.1, { title := g.2.head?.elim "" (·.movie_title)
                       accuracy := accuracy
                       weight := training_weight accuracy
                       sample_count := g.2.length }))
             total_predictions := records.length
             sample_count := surviving.length }

/-! ### Supporting lemmas -/

theorem splitPipe_ne_nil (cs : List Char) : splitPipe cs ≠ [] := by
  cases cs with
  | nil => simp [splitPipe]
  | cons c cs =>
    rw [splitPipe]
    split
    · simp
    · split <;> simp

theorem genreSet_nonempty (s : String) : (genreSet s).Nonempty := by
  unfold genreSet
  cases h : splitPipe s.data with
  | nil => exact absurd h (splitPipe_ne_nil _)
  | cons x xs => exact ⟨x, by simp [h]⟩

/-! ### Claims -/

/-- Claim C2 (code bug): the source's `extract_base_title` strips trailing
numerals before stripping the ": The Sequel" suffix, so
"Toy Story 2: The Sequel" normalizes to "toy story 2", not "toy story" as
the function's own docstring example states, and
`franchise_similarity "Toy Story 2: The Sequel" "Toy Story"` is 0.0, not
the claimed 1.0.  The general part of the claim does hold: the function
returns 1.0 exactly when the two normalized titles are equal and
non-empty, else 0.0. -/
theorem C2_franchise_normalization :
    extract_base_title "Toy Story 2: The Sequel" = "toy story 2" ∧
    extract_base_title "Toy Story" = "toy story" ∧
    franchise_similarity "Toy Story 2: The Sequel" "Toy Story" = 0 ∧
    (∀ a b : String, franchise_similarity a b = 1 ↔
      (extract_base_title a = extract_base_title b ∧
        extract_base_title a ≠ "")) := by
  refine ⟨rfl, rfl, rfl, fun a b => ?_⟩
  unfold franchise_similarity
  dsimp only
  split_ifs with h
  · exact iff_of_true rfl h
  · exact iff_of_false (by norm_num) h

/-- Claim C9: `genre_similarity` (Jaccard index over the pipe-separated
genre strings) is symmetric, equals 1.0 on any non-empty string paired
with itself, is 0.0 when either string is empty, and always lies in
[0, 1]. -/
theorem C9_genre_similarity_props :
    (∀ a b, genre_similarity a b = genre_similarity b a) ∧
    (∀ a, a ≠ "" → genre_similarity a a = 1) ∧
    (∀ b, genre_similarity "" b = 0 ∧ genre_similarity b "" = 0) ∧
    (∀ a b, 0 ≤ genre_similarity a b ∧ genre_similarity a b ≤ 1) := by
  refine ⟨fun a b => ?_, fun a ha => ?_, fun b => ?_, fun a b => ?_⟩
  · unfold genre_similarity
    by_cases ha : a = "" <;> by_cases hb : b = "" <;>
      simp [ha, hb, Finset.inter_comm, Finset.union_comm]
  · have hcard : 0 < (genreSet a).card :=
      Finset.card_pos.mpr (genreSet_nonempty a)
    unfold genre_similarity
    rw [if_neg (by simp [ha])]
    rw [Finset.inter_self, Finset.union_self]
    exact div_self (by exact_mod_cast hcard.ne')
  · constructor
    · unfold genre_similarity
      rw [if_pos (Or.inl rfl)]
    · unfold genre_similarity
      rw [if_pos (Or.inr rfl)]
  · unfold genre_similarity
    split_ifs with h
    · norm_num
    · constructor
      · positivity
      · apply div_le_one_of_le₀
        · exact_mod_cast Finset.card_le_card Finset.inter_subset_union
        · positivity

/-- Claim C9 witness: concrete instances obtained from the theorem. -/
theorem C9_genre_similarity_witness :
    genre_similarity "Action|Drama" "Action|Drama" = 1 ∧
    genre_similarity "Action" "Drama" = genre_similarity "Drama" "Action" :=
  ⟨C9_genre_similarity_props.2.1 "Action|Drama" (by decide),
    C9_genre_similarity_props.1 "Action" "Drama"⟩

/-- Claim C10: when no version row has status active with an unexpired
window, `get_active_model_version` returns the fallback id "v1_initial";
otherwise it returns the id of a qualifying row whose `created_at` is
maximal among the qualifying rows. -/
theorem C10_active_version_fallback (versions : List VersionRow) (now : ℤ) :
    (activeQualifying versions now = [] ∧
      get_active_model_version versions now = "v1_initial") ∨
    (∃ r ∈ activeQualifying versions now,
      get_active_model_version versions now = r.version_id ∧
      ∀ s ∈ activeQualifying versions now, s.created_at ≤ r.created_at) := by
  unfold get_active_model_version
  cases hm : (activeQualifying versions now).argmax (·.created_at) with
  | none =>
    exact Or.inl ⟨List.argmax_eq_none.mp hm, rfl⟩
  | some r =>
    refine Or.inr ⟨r, List.argmax_mem hm, rfl, fun s hs => ?_⟩
    exact List.le_of_mem_argmax hs hm

/-- Claim C1 counterexample: a user with exactly 5 recent QualityRecords
averaging quality_score 0.3 — the source requires strictly more than 5
rows (`stats['total'] > 5`), so `check_for_model_revalidation` with
threshold 0.5 reports no action instead of the claimed
`needs_revalidation == true`. -/
theorem C1_exactly_five_counterexample :
    (recentQuality (List.replicate 5
      { recommendation_set_id := 1, user_id := 1, movie_id := 1,
        movie_title := "M", predicted_score := 1/2, actual_rating := 5,
        quality_score := 3/10, was_correct := false, checked_at := 0 })
      0 1).length = 5 ∧
    avgQuality (recentQuality (List.replicate 5
      { recommendation_set_id := 1, user_id := 1, movie_id := 1,
        movie_title := "M", predicted_score := 1/2, actual_rating := 5,
        quality_score := 3/10, was_correct := false, checked_at := 0 })
      0 1) = 3/10 ∧
    (check_for_model_revalidation (List.replicate 5
      { recommendation_set_id := 1, user_id := 1, movie_id := 1,
        movie_title := "M", predicted_score := 1/2, actual_rating := 5,
        quality_score := 3/10, was_correct := false, checked_at := 0 })
      0 1 (1/2)).needs_revalidation = false := by
  refine ⟨by decide, by norm_num [recentQuality, avgQuality], by decide⟩

/-- Claim C1 as amended: `check_for_model_revalidation` flags
`needs_revalidation` exactly when the user has strictly more than 5
validated QualityRecords in the 30-day window and their average
quality_score is below the threshold; with 5 or fewer it reports no
action. -/
theorem C1_revalidation_amended (db : List QualityRecord) (now : ℤ)
    (user_id : ℕ) (threshold : ℚ) :
    (check_for_model_revalidation db now user_id threshold).needs_revalidation
        = true ↔
      (5 < (recentQuality db now user_id).length ∧
        avgQuality (recentQuality db now user_id) < threshold) := by
  unfold check_for_model_revalidation
  dsimp only
  split_ifs with h
  · simp [h]
  · simp [h]

/-- Claim C6: in general-mode recommendations every candidate's
hybrid_score is the weighted component sum
0.40·genre + 0.15·cast + 0.05·franchise + 0.30·rating + 0.10·popularity
plus the genre confidence boost, and the boost is +0.15 above 0.7 genre
similarity, +0.10 above 0.5, −0.20 below 0.3, and 0 in between. -/
theorem C6_general_hybrid_score (g c f r p : ℚ) :
    (score_general_candidate g c f r p).hybrid_score =
      40/100 * g + 15/100 * c + 5/100 * f + 30/100 * r + 10/100 * p +
        (score_general_candidate g c f r p).genre_boost ∧
    ((7/10 < g ∧ (score_general_candidate g c f r p).genre_boost = 15/100) ∨
     (g ≤ 7/10 ∧ 5/10 < g ∧
       (score_general_candidate g c f r p).genre_boost = 10/100) ∨
     (g < 3/10 ∧ (score_general_candidate g c f r p).genre_boost = -(20/100)) ∨
     (3/10 ≤ g ∧ g ≤ 5/10 ∧
       (score_general_candidate g c f r p).genre_boost = 0)) := by
  unfold score_general_candidate
  refine ⟨rfl, ?_⟩
  dsimp only
  split_ifs with h1 h2 h3
  · exact Or.inl ⟨h1, rfl⟩
  · exact Or.inr (Or.inl ⟨not_lt.mp h1, h2, rfl⟩)
  · exact Or.inr (Or.inr (Or.inl ⟨h3, rfl⟩))
  · exact Or.inr (Or.inr (Or.inr ⟨not_lt.mp h3, not_lt.mp h2, rfl⟩))

/-- Claim C4: when the rated movie is found in a recent valid
recommendation set with predicted score p, the returned result and the
written QualityRecord carry quality_score = max(0, 1 − |p − rating/10|)
and are accurate/correct exactly when |p − rating/10| ≤ 0.2. -/
theorem C4_validate_found (db : TrackerDB) (now : ℤ) (user_id : ℕ)
    (movie_id : ℚ) (movie_title : String) (user_rating : ℕ)
    (p : RecSetItem × RecSet)
    (hfound : find_recent_recommendation db now user_id
      (lowerStr (String.mk (pyStrip movie_title.data))) = some p) :
    (validate_recommendation_against_rating db now user_id movie_id
        movie_title user_rating).1.was_in_recommendations = true ∧
    (validate_recommendation_against_rating db now user_id movie_id
        movie_title user_rating).1.quality_score =
      max 0 (1 - |p.1.predicted_score - (user_rating : ℚ) / 10|) ∧
    ((validate_recommendation_against_rating db now user_id movie_id
        movie_title user_rating).1.is_accurate = true ↔
      |p.1.predicted_score - (user_rating : ℚ) / 10| ≤ 2/10) ∧
    (validate_recommendation_against_rating db now user_id movie_id
        movie_title user_rating).2.quality = db.quality ++
      [{ recommendation_set_id := p.2.id
         user_id := user_id
         movie_id := movie_id
         movie_title := movie_title
         predicted_score := p.1.predicted_score
         actual_rating := (user_rating : ℚ)
         quality_score :=
           max 0 (1 - |p.1.predicted_score - (user_rating : ℚ) / 10|)
         was_correct :=
           decide (|p.1.predicted_score - (user_rating : ℚ) / 10| ≤ 2/10)
         checked_at := now }] := by
  unfold validate_recommendation_against_rating
  dsimp only
  rw [hfound]
  exact ⟨rfl, rfl, ⟨of_decide_eq_true, decide_eq_true⟩, rfl⟩

def c4item : RecSetItem :=
  { recommendation_set_id := 1, movie_id := some 42,
    movie_title := "Toy Story", predicted_score := 4/5, rank_position := 1 }

def c4set : RecSet :=
  { id := 1, user_id := 7, recommendation_type := "general",
    generated_at := 0, is_valid := true }

def c4db : TrackerDB := { sets := [c4set], items := [c4item], quality := [] }

/-- Claim C4 witness: for a user whose recent set recommended "Toy Story"
at predicted score 0.8, rating it 7 gives quality 0.9 and an accurate
validation. -/
theorem C4_validate_found_witness :
    find_recent_recommendation c4db 1 7
      (lowerStr (String.mk (pyStrip ("Toy Story" : String).data))) =
      some (c4item, c4set) ∧
    (validate_recommendation_against_rating c4db 1 7 42 "Toy Story"
      7).1.quality_score = 9/10 ∧
    (validate_recommendation_against_rating c4db 1 7 42 "Toy Story"
      7).1.is_accurate = true := by
  have h := C4_validate_found c4db 1 7 42 "Toy Story" 7 (c4item, c4set)
    (by rfl)
  refine ⟨by rfl, ?_, ?_⟩
  · rw [h.2.1]
    have : |(c4item, c4set).1.predicted_score - ((7 : ℕ) : ℚ) / 10| = 1/10 := by
      rw [show (c4item, c4set).1.predicted_score = 4/5 from rfl]
      rw [abs_of_nonneg] <;> norm_num
    rw [this]
    norm_num
  · apply h.2.2.1.mpr
    have : |(c4item, c4set).1.predicted_score - ((7 : ℕ) : ℚ) / 10| = 1/10 := by
      rw [show (c4item, c4set).1.predicted_score = 4/5 from rfl]
      rw [abs_of_nonneg] <;> norm_num
    rw [this]
    norm_num

/-- Claim C5: when the rated movie is in no recent valid recommendation
set, the function still writes a QualityRecord with the sentinel set
reference 0, predicted_score 0, quality_score 0 and was_correct false,
and returns was_in_recommendations = false with quality_score = 0 (the
embedding is total: no exception path). -/
theorem C5_validate_not_found (db : TrackerDB) (now : ℤ) (user_id : ℕ)
    (movie_id : ℚ) (movie_title : String) (user_rating : ℕ)
    (hnone : find_recent_recommendation db now user_id
      (lowerStr (String.mk (pyStrip movie_title.data))) = none) :
    (validate_recommendation_against_rating db now user_id movie_id
        movie_title user_rating).1.was_in_recommendations = false ∧
    (validate_recommendation_against_rating db now user_id movie_id
        movie_title user_rating).1.quality_score = 0 ∧
    (validate_recommendation_against_rating db now user_id movie_id
        movie_title user_rating).1.predicted_score = 0 ∧
    (validate_recommendation_against_rating db now user_id movie_id
        movie_title user_rating).2.quality = db.quality ++
      [{ recommendation_set_id := 0
         user_id := user_id
         movie_id := movie_id
         movie_title := movie_title
         predicted_score := 0
         actual_rating := (user_rating : ℚ)
         quality_score := 0
         was_correct := false
         checked_at := now }] := by
  unfold validate_recommendation_against_rating
  dsimp only
  rw [hnone]
  exact ⟨rfl, rfl, rfl, rfl⟩

/-- Claim C5 witness: rating a movie with an empty recommendation history
records the external sentinel row. -/
theorem C5_validate_not_found_witness :
    find_recent_recommendation { sets := [], items := [], quality := [] } 0 1
      (lowerStr (String.mk (pyStrip ("Nowhere Movie" : String).data))) =
      none ∧
    (validate_recommendation_against_rating
      { sets := [], items := [], quality := [] } 0 1 5 "Nowhere Movie"
      6).1.was_in_recommendations = false := by
  exact ⟨by rfl, (C5_validate_not_found
    { sets := [], items := [], quality := [] } 0 1 5 "Nowhere Movie" 6
    (by rfl)).1⟩

/-- Claim C8: for an A/B test whose two versions both have a recorded
test_accuracy, `evaluate_ab_test` declares the strictly-higher-accuracy
version the winner and sets confidence to the maximum of the two
accuracies. -/
theorem C8_ab_test_winner (versions : List VersionRow)
    (tests : List ABTestRow) (test_id : String) (t : ABTestRow) (x y : ℚ)
    (hfind : tests.find? (fun u => u.test_id == test_id) = some t)
    (hx : lookupTestAccuracy versions t.version_a_id = some x)
    (hy : lookupTestAccuracy versions t.version_b_id = some y) :
    ∃ r tests2, evaluate_ab_test versions tests test_id = some (r, tests2) ∧
      r.confidence = max x y ∧
      (y < x → r.winner = t.version_a_id ∧ r.confidence = x) ∧
      (x < y → r.winner = t.version_b_id ∧ r.confidence = y) := by
  unfold evaluate_ab_test
  rw [hfind]
  dsimp only
  rw [hx, hy]
  refine ⟨_, _, rfl, rfl, fun hlt => ⟨?_, ?_⟩, fun hlt => ⟨?_, ?_⟩⟩
  · dsimp only
    rw [if_pos hlt]
  · dsimp only
    exact max_eq_left hlt.le
  · dsimp only
    rw [if_neg (not_lt.mpr hlt.le)]
  · dsimp only
    exact max_eq_right hlt.le

def c8versionA : VersionRow :=
  { version_id := "vA", status := "ready", created_at := 1,
    training_samples := none, test_accuracy := some (3/5),
    active_until := none, parent_version_id := none, retrain_trigger := none }

def c8versionB : VersionRow :=
  { version_id := "vB", status := "ready", created_at := 2,
    training_samples := none, test_accuracy := some (11/20),
    active_until := none, parent_version_id := none, retrain_trigger := none }

def c8test : ABTestRow :=
  { test_id := "t1", version_a_id := "vA", version_b_id := "vB",
    status := "running", winner_id := none, confidence_score := none }

/-- Claim C8 witness: accuracies 0.60 vs 0.55 — the 0.60 version wins with
confidence 0.60. -/
theorem C8_ab_test_winner_witness :
    [c8test].find? (fun u => u.test_id == "t1") = some c8test ∧
    lookupTestAccuracy [c8versionA, c8versionB] "vA" = some (3/5) ∧
    lookupTestAccuracy [c8versionA, c8versionB] "vB" = some (11/20) ∧
    ∃ r tests2,
      evaluate_ab_test [c8versionA, c8versionB] [c8test] "t1" =
        some (r, tests2) ∧
      r.winner = "vA" ∧ r.confidence = 3/5 := by
  obtain ⟨r, tests2, heq, hconf, hgt, hlt⟩ :=
    C8_ab_test_winner [c8versionA, c8versionB] [c8test] "t1" c8test
      (3/5) (11/20) (by rfl) (by rfl) (by rfl)
  obtain ⟨hw, hc⟩ := hgt (by norm_num)
  exact ⟨by rfl, by rfl, by rfl, r, tests2, heq, hw, hc⟩

/-- Claim C7: `create_weighted_training_data` weights every surviving
movie by accuracy² + 0.1 (so 1.1 at accuracy 1, 0.1 at accuracy 0, and
monotonically in accuracy), keeps only movies with at least
`min_samples` predictions, and returns None exactly when no movie
survives the filter. -/
theorem C7_weighted_training (db : List QualityRecord) (now : ℤ)
    (user_id : Option ℕ) (days_back : ℤ) (min_samples : ℕ) (a b : ℚ)
    (ha : 0 ≤ a) (hab : a ≤ b) (hb : b ≤ 1) :
    training_weight 1 = 11/10 ∧ training_weight 0 = 1/10 ∧
    training_weight a ≤ training_weight b ∧
    (∀ td, create_weighted_training_data db now user_id days_back
        min_samples = some td →
      ∀ pr ∈ td.movie_stats,
        pr.2.weight = training_weight pr.2.accuracy ∧
        min_samples ≤ pr.2.sample_count) ∧
    (create_weighted_training_data db now user_id days_back min_samples
        = none ↔
      ∀ g ∈ movieGroups (recentQualityWindow db now user_id days_back),
        g.2.length < min_samples) := by
  refine ⟨by norm_num [training_weight], by norm_num [training_weight],
    ?_, ?_, ?_⟩
  · unfold training_weight
    exact add_le_add_right (pow_le_pow_left₀ ha hab 2) _
  · intro td htd pr hpr
    unfold create_weighted_training_data at htd
    dsimp only at htd
    by_cases h1 : (recentQualityWindow db now user_id days_back).isEmpty
    · rw [if_pos h1] at htd
      exact absurd htd (by simp)
    · rw [if_neg h1] at htd
      by_cases h2 : ((movieGroups
          (recentQualityWindow db now user_id days_back)).filter
          (fun g => decide (min_samples ≤ g.2.length))).isEmpty
      · rw [if_pos h2] at htd
        exact absurd htd (by simp)
      · rw [if_neg h2] at htd
        rw [← Option.some.inj htd] at hpr
        dsimp only at hpr
        obtain ⟨g, hg, rfl⟩ := List.mem_map.mp hpr
        exact ⟨rfl, of_decide_eq_true (List.mem_filter.mp hg).2⟩
  · constructor
    · intro hnone g hg
      unfold create_weighted_training_data at hnone
      dsimp only at hnone
      by_cases h1 : (recentQualityWindow db now user_id days_back).isEmpty
      · rw [List.isEmpty_iff.mp h1] at hg
        simp [movieGroups, firstDedup] at hg
      · rw [if_neg h1] at hnone
        by_cases h2 : ((movieGroups
            (recentQualityWindow db now user_id days_back)).filter
            (fun g => decide (min_samples ≤ g.2.length))).isEmpty
        · have h3 := List.filter_eq_nil_iff.mp (List.isEmpty_iff.mp h2) g hg
          simp only [decide_eq_true_eq] at h3
          exact Nat.lt_of_not_le h3
        · rw [if_neg h2] at hnone
          exact absurd hnone (by simp)
    · intro hall
      unfold create_weighted_training_data
      dsimp only
      by_cases h1 : (recentQualityWindow db now user_id days_back).isEmpty
      · rw [if_pos h1]
      · rw [if_neg h1]
        have hnil : (movieGroups
            (recentQualityWindow db now user_id days_back)).filter
            (fun g => decide (min_samples ≤ g.2.length)) = [] := by
          apply List.filter_eq_nil_iff.mpr
          intro g hg
          simp only [decide_eq_true_eq]
          exact Nat.not_le.mpr (hall g hg)
        rw [if_pos (List.isEmpty_iff.mpr hnil)]

def c7rec : QualityRecord :=
  { recommendation_set_id := 1, user_id := 2, movie_id := 9,
    movie_title := "W", predicted_score := 1/2, actual_rating := 5,
    quality_score := 1, was_correct := true, checked_at := 0 }

/-- Claim C7 witness: five always-correct predictions of one movie with
min_samples 5 survive, with the weight formula applying to the one
surviving group. -/
theorem C7_weighted_training_witness :
    (0 : ℚ) ≤ 0 ∧ (0 : ℚ) ≤ 1 ∧ (1 : ℚ) ≤ 1 ∧
    training_weight 1 = 11/10 ∧
    (∀ td, create_weighted_training_data (List.replicate 5 c7rec) 0 none 30 5
        = some td →
      ∀ pr ∈ td.movie_stats,
        pr.2.weight = training_weight pr.2.accuracy ∧
        5 ≤ pr.2.sample_count) := by
  have h := C7_weighted_training (List.replicate 5 c7rec) 0 none 30 5 0 1
    (by norm_num) (by norm_num) (by norm_num)
  exact ⟨by norm_num, by norm_num, by norm_num, h.1, h.2.2.2.1⟩

/-! ### Claim C3: activation invariant -/

/-- The per-row effect of `activate_model_version` with
`deactivate_previous = true`: deactivate-if-active, then activate the row
matching the requested id. -/
def activateStep (v2 : String) (now : ℤ) (r : VersionRow) : VersionRow :=
  let r1 := if r.status = "active" then { r with status := "inactive" } else r
  if r1.version_id = v2 then
    { r1 with status := "active", active_until := some (now + 30) }
  else r1

theorem activate_eq_map (versions : List VersionRow) (v2 : String)
    (now : ℤ) :
    activate_model_version versions v2 true now =
      versions.map (activateStep v2 now) := by
  unfold activate_model_version activateStep
  rw [if_pos rfl, List.map_map]
  rfl

theorem activateStep_status (v2 : String) (now : ℤ) (r : VersionRow) :
    ((activateStep v2 now r).status == "active") =
      (r.version_id == v2) := by
  unfold activateStep
  dsimp only
  rw [Bool.eq_iff_iff]
  by_cases hid : r.version_id = v2
  · by_cases hs : r.status = "active" <;> simp [hid, hs]
  · by_cases hs : r.status = "active" <;> simp [hid, hs]

theorem activateStep_id (v2 : String) (now : ℤ) (r : VersionRow) :
    (activateStep v2 now r).version_id = r.version_id := by
  unfold activateStep
  dsimp only
  by_cases hs : r.status = "active" <;> by_cases hid : r.version_id = v2 <;>
    simp [hs, hid]

theorem filter_key_singleton (v : String) :
    ∀ l : List VersionRow, (l.map (·.version_id)).Nodup →
      v ∈ l.map (·.version_id) →
      ∃ r, l.filter (fun a => a.version_id == v) = [r] ∧
        r.version_id = v := by
  intro l
  induction l with
  | nil => intro _ h; simp at h
  | cons a t ih =>
    intro hnd hmem
    simp only [List.map_cons, List.nodup_cons] at hnd
    by_cases ha : a.version_id = v
    · refine ⟨a, ?_, ha⟩
      rw [List.filter_cons_of_pos (by simp [ha])]
      have ht : t.filter (fun x => x.version_id == v) = [] := by
        apply List.filter_eq_nil_iff.mpr
        intro x hx
        simp only [beq_iff_eq]
        intro hxv
        have hmm : x.version_id ∈ t.map (·.version_id) :=
          List.mem_map_of_mem _ hx
        rw [hxv, ← ha] at hmm
        exact absurd hmm hnd.1
      rw [ht]
    · simp only [List.map_cons, List.mem_cons] at hmem
      rcases hmem with h | h
      · exact absurd h.symm ha
      · rw [List.filter_cons_of_neg (by simp [ha])]
        exact ih hnd.2 h

/-- Claim C3: with unique version ids and v2 present in the table,
`activate_model_version v2` with `deactivate_previous = true` leaves
exactly one active row — the one with id v2 — and every previously active
other row becomes inactive. -/
theorem C3_activation_invariant (versions : List VersionRow) (v2 : String)
    (now : ℤ)
    (hnd : (versions.map (·.version_id)).Nodup)
    (hmem : v2 ∈ versions.map (·.version_id)) :
    ((activate_model_version versions v2 true now).filter
        (fun r => r.status == "active")).map (·.version_id) = [v2] ∧
    ∀ r ∈ versions, r.status = "active" → r.version_id ≠ v2 →
      { r with status := "inactive" } ∈
        activate_model_version versions v2 true now := by
  constructor
  · rw [activate_eq_map, List.filter_map]
    have hcongr : versions.filter
        ((fun r => r.status == "active") ∘ activateStep v2 now) =
        versions.filter (fun a => a.version_id == v2) :=
      List.filter_congr (fun x _ => activateStep_status v2 now x)
    rw [hcongr]
    obtain ⟨r0, hr0, hid0⟩ := filter_key_singleton v2 versions hnd hmem
    rw [hr0]
    simp [activateStep_id, hid0]
  · intro r hr hs hid
    have hstep : activateStep v2 now r = { r with status := "inactive" } := by
      unfold activateStep
      dsimp only
      simp [hs, hid]
    rw [activate_eq_map, ← hstep]
    exact List.mem_map_of_mem _ hr

def c3v1 : VersionRow :=
  { version_id := "v1_initial", status := "active", created_at := 0,
    training_samples := none, test_accuracy := none, active_until := none,
    parent_version_id := none, retrain_trigger := none }

def c3v2 : VersionRow :=
  { version_id := "v2", status := "ready", created_at := 1,
    training_samples := some 40, test_accuracy := some (7/10),
    active_until := none, parent_version_id := some "v1_initial",
    retrain_trigger := some "automatic_retraining" }

def c3v3 : VersionRow :=
  { version_id := "v3", status := "inactive", created_at := 2,
    training_samples := none, test_accuracy := none, active_until := none,
    parent_version_id := none, retrain_trigger := none }

/-- Claim C3 witness: activating "v2" in a three-row table with one
previously active row leaves exactly ["v2"] active. -/
theorem C3_activation_witness :
    ([c3v1, c3v2, c3v3].map (·.version_id)).Nodup ∧
    "v2" ∈ [c3v1, c3v2, c3v3].map (·.version_id) ∧
    ((activate_model_version [c3v1, c3v2, c3v3] "v2" true 0).filter
        (fun r => r.status == "active")).map (·.version_id) = ["v2"] :=
  ⟨by decide, by decide,
    (C3_activation_invariant [c3v1, c3v2, c3v3] "v2" 0 (by decide)
      (by decide)).1⟩

end MovieNight
